import Mathlib

/-!
A shallow embedding of the `synth_rs` software synthesizer
(`src/noise_maker.rs`, `src/instruments.rs`, `src/note.rs`, `src/main.rs`).

`f64` values are modelled as rationals.  The transcendental functions
(`sin`, `asin`, `2^x`) and the constant `π`, as well as the value drawn by
`fastrand` for the `Noise` waveform, are abstracted into an `Oracle`
structure: every definition is a computable function of the oracle, and a
theorem quantified over oracles holds for every interpretation of the
transcendental functions, in particular the real one.  Division is Lean's
total division on `ℚ` (`x / 0 = 0`); the places where the source can divide
by zero are tracked separately by `amplitudeDividesByZero`.
-/

namespace SynthRs

/-- Abstract interpretation of the `f64` math library and of the random
number generator: `sin`/`asin` stand for `f64::sin`/`f64::asin`, `pi` for
`std::f64::consts::PI`, `pow2` for `x ↦ 2.0_f64.powf x`, and `rand` for the
value `fastrand::i32(-1..1) as f64` drawn by a `Noise` oscillator call. -/
structure Oracle where
  sin : ℚ → ℚ
  asin : ℚ → ℚ
  pi : ℚ
  pow2 : ℚ → ℚ
  rand : ℚ

/-- `src/noise_maker.rs`: `fn w(hertz) = hertz * 2.0 * PI`. -/
def w (o : Oracle) (hertz : ℚ) : ℚ :=
  hertz * 2 * o.pi

/-- `FRAC_2_PI = 2/π`. -/
def frac2pi (o : Oracle) : ℚ :=
  2 / o.pi

/-- `FRAC_PI_2 = π/2`. -/
def fracPi2 (o : Oracle) : ℚ :=
  o.pi / 2

/-- `src/noise_maker.rs`: `struct Note`.  `main.rs` constructs it with the
instrument index field spelled `instrument_id`; `noise_maker.rs` reads it as
`channel`.  We use the reader's name. -/
structure NoiseMakerNote where
  id : ℤ
  on_time : ℚ
  off_time : ℚ
  active : Bool
  channel : ℕ
  deriving DecidableEq, Repr

/-- `src/noise_maker.rs`: `Note::new()`. -/
def NoiseMakerNote.new : NoiseMakerNote :=
  { id := 0, on_time := 0, off_time := 0, active := false, channel := 0 }

/-- `src/noise_maker.rs`: `enum WaveType`. -/
inductive WaveType where
  | Sine
  | Square
  | Triangle
  | SawSlow
  | SawFast
  | Noise
  deriving DecidableEq, Repr

/-- Truncation toward zero, as Rust's `f64 -> int` truncation and the sign
convention of `f64::%` use. -/
def ratTrunc (x : ℚ) : ℤ :=
  if 0 ≤ x then ⌊x⌋ else ⌈x⌉

/-- Rust's `%` on `f64` (`fmod`): remainder with the sign of the dividend,
`a - b * trunc (a / b)`. -/
def fmod (a b : ℚ) : ℚ :=
  a - b * (ratTrunc (a / b) : ℚ)

/-- `src/noise_maker.rs`: `fn osc(dt, freq, wave, lfo_hertz, lfo_amplitude)`.
The `Noise` arm returns the oracle's drawn random value. -/
def osc (o : Oracle) (dt freq : ℚ) (wave : WaveType)
    (lfo_hertz lfo_amplitude : ℚ) : ℚ :=
  let base_freq := w o freq * dt + lfo_amplitude * freq * o.sin (w o lfo_hertz * dt)
  match wave with
  | .Sine => o.sin base_freq
  | .Square => if o.sin base_freq > 0 then 1 else -1
  | .Triangle => o.asin (o.sin base_freq) * frac2pi o
  | .SawSlow =>
      let out := ((List.range' 1 49).map (fun x => (x : ℚ))).foldl
        (fun acc curr => acc + o.sin (curr * base_freq) / curr) 0
      out * frac2pi o
  | .SawFast => frac2pi o * (freq * o.pi * fmod dt (1 / freq) - fracPi2 o)
  | .Noise => o.rand

/-- `src/noise_maker.rs`: `fn scale(note_id, _scale_id)`. -/
def scale (note_id : ℤ) (_scale_id : ℤ) : ℚ :=
  256 * (1.0594630943592953 : ℚ) ^ note_id

/-- `src/noise_maker.rs`: `struct EnvelopeADSR`. -/
structure EnvelopeADSR where
  attack_time : ℚ
  decay_time : ℚ
  sustain_amplitude : ℚ
  release_time : ℚ
  start_amplitude : ℚ
  deriving DecidableEq, Repr

/-- `src/noise_maker.rs`: `EnvelopeADSR::new()`. -/
def EnvelopeADSR.new : EnvelopeADSR :=
  { attack_time := 0.1
    decay_time := 0.1
    sustain_amplitude := 1
    release_time := 0.2
    start_amplitude := 1 }

/-- `EnvelopeADSR::default()` as used by `instruments.rs`.  The sibling
`Default` impls in `noise_maker.rs` (`Note`, `NoiseMakerData`) both delegate
to `new()`; the envelope default carries the `new()` values. -/
def EnvelopeADSR.default : EnvelopeADSR :=
  EnvelopeADSR.new

/-- `src/noise_maker.rs`: `EnvelopeADSR::amplitude(dt, dt_on, dt_off)`.
The three mutually exclusive phase branches of each arm are written as the
source writes them: an initial value of `0` conditionally overwritten, then
the final `<= 0.0001` clamp. -/
def EnvelopeADSR.amplitude (e : EnvelopeADSR) (dt dt_on dt_off : ℚ) : ℚ :=
  let amplitude :=
    if dt_on > dt_off then
      let lifetime := dt - dt_on
      let a1 := if lifetime ≤ e.attack_time then
        lifetime / e.attack_time * e.start_amplitude else 0
      let a2 := if e.attack_time < lifetime ∧ lifetime ≤ e.attack_time + e.decay_time then
        (lifetime - e.attack_time) / e.decay_time *
          (e.sustain_amplitude - e.start_amplitude) + e.start_amplitude else a1
      if e.attack_time + e.decay_time < lifetime then e.sustain_amplitude else a2
    else
      let lifetime := dt_off - dt_on
      let r1 := if lifetime ≤ e.attack_time then
        lifetime / e.attack_time * e.start_amplitude else 0
      let r2 := if e.attack_time < lifetime ∧ lifetime ≤ e.attack_time + e.decay_time then
        (lifetime - e.attack_time) / e.decay_time *
          (e.sustain_amplitude - e.start_amplitude) + e.start_amplitude else r1
      let release_amplitude :=
        if e.attack_time + e.decay_time < lifetime then e.sustain_amplitude else r2
      (dt - dt_off) / e.release_time * (-release_amplitude) + release_amplitude
  if amplitude ≤ 0.0001 then 0 else amplitude

/-- `true` exactly when the source's `EnvelopeADSR::amplitude` evaluates a
division whose denominator is zero on this input (in `f64` such a division
produces `NaN` or `±∞`).  Each disjunct corresponds to one division actually
executed by the branch structure of the source. -/
def amplitudeDividesByZero (e : EnvelopeADSR) (dt dt_on dt_off : ℚ) : Bool :=
  if dt_on > dt_off then
    let lifetime := dt - dt_on
    decide ((lifetime ≤ e.attack_time ∧ e.attack_time = 0) ∨
      (e.attack_time < lifetime ∧ lifetime ≤ e.attack_time + e.decay_time ∧
        e.decay_time = 0))
  else
    let lifetime := dt_off - dt_on
    decide ((lifetime ≤ e.attack_time ∧ e.attack_time = 0) ∨
      (e.attack_time < lifetime ∧ lifetime ≤ e.attack_time + e.decay_time ∧
        e.decay_time = 0) ∨
      e.release_time = 0)

/-- `x as u8` on an integer-valued cast chain: reduction mod 256. -/
def intAsU8 (x : ℤ) : ℤ :=
  x % 256

/-- `x as i8`: two's-complement wrap into `[-128, 127]`. -/
def intAsI8 (x : ℤ) : ℤ :=
  (x + 128) % 256 - 128

/-- `src/note.rs`: `enum NoteLetter` with its discriminant values. -/
inductive NoteLetter where
  | C
  | D
  | E
  | F
  | G
  | A
  | B
  deriving DecidableEq, Repr

/-- The discriminant of `NoteLetter` (`C = 0, D = 2, ...`). -/
def NoteLetter.val : NoteLetter → ℤ
  | .C => 0
  | .D => 2
  | .E => 4
  | .F => 5
  | .G => 7
  | .A => 9
  | .B => 11

/-- `src/note.rs`: `enum Accidental` with its discriminant values. -/
inductive Accidental where
  | Flat
  | Sharp
  | None
  deriving DecidableEq, Repr

/-- The discriminant of `Accidental` (`Flat = -1, Sharp = 1, None = 0`). -/
def Accidental.val : Accidental → ℤ
  | .Flat => -1
  | .Sharp => 1
  | .None => 0

/-- `src/note.rs`: `struct Note` (letter, accidental, octave `u8`). -/
structure Note where
  letter : NoteLetter
  accidental : Accidental
  octave : ℕ
  deriving DecidableEq, Repr

/-- `src/note.rs`: `Note::into_u8`:
`((letter as i8 + accidental as i8) % 12) as u8 + octave * 12`, with Rust's
truncating `%` on `i8` and `u8` arithmetic mod 256. -/
def Note.into_u8 (n : Note) : ℤ :=
  (intAsU8 (Int.tmod (n.letter.val + n.accidental.val) 12) + n.octave * 12) % 256

/-- `src/note.rs`: `Note::freq`: `2^((into_u8 - 69)/12) * 440`. -/
def Note.freq (o : Oracle) (n : Note) : ℚ :=
  o.pow2 (((n.into_u8 : ℚ) - 69) / 12) * 440

/-- `src/note.rs`: `impl From<u8> for Note`.  `val` is a `u8` value
(0-255); the final arm carries the `11 => B` case (the remaining pattern is
the source's `unreachable!`). -/
def Note.fromU8 (val : ℤ) : Note :=
  let octave := (val / 12).toNat
  let r := val % 12
  if r = 0 then ⟨.C, .None, octave⟩
  else if r = 1 then ⟨.C, .Sharp, octave⟩
  else if r = 2 then ⟨.D, .None, octave⟩
  else if r = 3 then ⟨.D, .Sharp, octave⟩
  else if r = 4 then ⟨.E, .None, octave⟩
  else if r = 5 then ⟨.F, .None, octave⟩
  else if r = 6 then ⟨.F, .Sharp, octave⟩
  else if r = 7 then ⟨.G, .None, octave⟩
  else if r = 8 then ⟨.G, .Sharp, octave⟩
  else if r = 9 then ⟨.A, .None, octave⟩
  else if r = 10 then ⟨.A, .Sharp, octave⟩
  else ⟨.B, .None, octave⟩

/-- `src/instruments.rs`: `struct OscillatorConfig`. -/
structure OscillatorConfig where
  weight : ℚ
  note_offset : ℤ
  wave : WaveType
  lfo_hertz : ℚ
  lfo_amplitude : ℚ
  deriving DecidableEq, Repr

/-- `src/instruments.rs`: `impl Default for OscillatorConfig`. -/
def OscillatorConfig.defaultConfig : OscillatorConfig :=
  { weight := 1, note_offset := 0, wave := .Sine, lfo_hertz := 0, lfo_amplitude := 0 }

/-- The method suite an `enum_dispatch` `InstrumentType` variant provides to
the `Instrument` trait: `oscillators()`, `envelope()`, `volume()`,
`max_lifetime()`. -/
structure InstrumentSpec where
  oscillators : List OscillatorConfig
  envelope : EnvelopeADSR
  volume : ℚ
  max_lifetime : ℚ

/-- `src/instruments.rs`: `impl Instrument for Default {}` — every method is
the trait default: one default oscillator, default envelope, volume `1.0`,
and the trait's default `max_lifetime` of `1.0`. -/
def DefaultInstrument : InstrumentSpec :=
  { oscillators := [OscillatorConfig.defaultConfig]
    envelope := EnvelopeADSR.default
    volume := 1
    max_lifetime := 1 }

/-- `src/instruments.rs`: `DrumKick::new()` with its `Instrument` impl
(overridden oscillators, envelope and `max_lifetime = 1.5`; trait-default
volume). -/
def DrumKick : InstrumentSpec :=
  { oscillators :=
      [{ weight := 0.99, note_offset := -36, wave := .Sine,
         lfo_hertz := 1, lfo_amplitude := 1 }
       , { weight := 0.01, note_offset := 0, wave := .Noise,
           lfo_hertz := 0, lfo_amplitude := 0 }]
    envelope :=
      { attack_time := 0.01, decay_time := 0.15, sustain_amplitude := 0,
        release_time := 0, start_amplitude := 1 }
    volume := 1
    max_lifetime := 1.5 }

/-- `src/instruments.rs`: the trait-default `Instrument::play_note`:
envelope amplitude, the hard-cutoff `finished` flag, the (sign-flipped)
oscillator time `note.on_time - dt`, the weighted oscillator-bank sum over
`Note::from((note.id as i8 + note_offset) as u8).freq()`, and
`sound = amplitude * oscillators * volume`. -/
def play_note (o : Oracle) (inst : InstrumentSpec) (dt : ℚ)
    (note : NoiseMakerNote) : ℚ × Bool :=
  let amplitude := inst.envelope.amplitude dt note.on_time note.off_time
  let finished := decide (inst.max_lifetime > 0 ∧ dt - note.on_time ≥ inst.max_lifetime)
  let dt2 := note.on_time - dt
  let oscillators := (inst.oscillators.map (fun config =>
      config.weight *
        osc o dt2 (Note.freq o (Note.fromU8 (intAsU8 (intAsI8 note.id + config.note_offset))))
          config.wave config.lfo_hertz config.lfo_amplitude)).sum
  let sound := amplitude * oscillators * inst.volume
  (sound, finished)

/-- `src/noise_maker.rs`: `struct NoiseMakerData`. -/
structure NoiseMakerData where
  num_sample : ℕ
  dt : ℚ
  envelope : EnvelopeADSR
  notes : List NoiseMakerNote

/-- `src/noise_maker.rs`: `NoiseMakerData::new()`. -/
def NoiseMakerData.new : NoiseMakerData :=
  { num_sample := 0, dt := 0, envelope := EnvelopeADSR.new, notes := [] }

/-- The per-note body of the `make_noise` map: render through the note's
instrument (`Vec` indexing modelled as function application on the channel)
and mark the note inactive when `finished && note.off_time > note.on_time`. -/
def renderNote (o : Oracle) (instruments : ℕ → InstrumentSpec) (dt : ℚ)
    (note : NoiseMakerNote) : ℚ × NoiseMakerNote :=
  let sf := play_note o (instruments note.channel) dt note
  if sf.2 && decide (note.off_time > note.on_time) then
    (sf.1, { note with active := false })
  else
    (sf.1, note)

/-- The `while let Some(index) = notes.position(|x| !x.active)` removal
loop: repeatedly removing the first inactive note keeps exactly the active
notes, in order. -/
def removeInactive : List NoiseMakerNote → List NoiseMakerNote
  | [] => []
  | n :: rest => if n.active then n :: removeInactive rest else removeInactive rest

/-- `src/noise_maker.rs`: the `Ok(data)` body of `NoiseMaker::make_noise`:
map-render all notes (marking finished-and-released notes inactive), sum the
sounds, evict inactive notes, scale by the master gain `0.2`. -/
def make_noise_locked (o : Oracle) (instruments : ℕ → InstrumentSpec)
    (data : NoiseMakerData) : ℚ × NoiseMakerData :=
  let dt := data.dt
  let rendered := data.notes.map (renderNote o instruments dt)
  let mixed_output := (rendered.map Prod.fst).sum
  let notes2 := removeInactive (rendered.map Prod.snd)
  (mixed_output * 0.2, { data with notes := notes2 })

/-- `src/noise_maker.rs`: `NoiseMaker::make_noise` with the lock-acquisition
result made explicit: `none` models `Err(_)` (a poisoned mutex) and yields
`0.0` without touching any state. -/
def make_noise (o : Oracle) (instruments : ℕ → InstrumentSpec)
    (locked : Option NoiseMakerData) : ℚ × Option NoiseMakerData :=
  match locked with
  | some data =>
      let r := make_noise_locked o instruments data
      (r.1, some r.2)
  | none => (0, none)

/-- `src/noise_maker.rs`: `Source::sample_rate` = 48000. -/
def sample_rate : ℕ := 48000

/-- `src/noise_maker.rs`: `Iterator::next` (`next_sample()`): on a
successful lock, wrap-increment `num_sample` (`usize`), derive
`dt = num_sample / sample_rate`, then run `make_noise`; on a failed lock
(`lockOk = false`, both acquisitions fail on the same poisoned mutex) the
state is untouched and the sample is `0`.  The final `as f32` cast is not
modelled. -/
def next (o : Oracle) (instruments : ℕ → InstrumentSpec) (lockOk : Bool)
    (data : NoiseMakerData) : ℚ × NoiseMakerData :=
  if lockOk then
    let ns := (data.num_sample + 1) % 2 ^ 64
    let data1 := { data with num_sample := ns, dt := (ns : ℚ) / (sample_rate : ℚ) }
    make_noise_locked o instruments data1
  else
    (0, data)

/-- In-place mutation of the first list element satisfying `p` (the effect
of `iter_mut().find(p)` followed by writes through the reference). -/
def updateFirst (p : NoiseMakerNote → Bool) (f : NoiseMakerNote → NoiseMakerNote) :
    List NoiseMakerNote → List NoiseMakerNote
  | [] => []
  | n :: rest => if p n then f n :: rest else n :: updateFirst p f rest

/-- `src/main.rs` (lines 47-66): the per-key note-on/note-off handling, the
spec's `note_event`.  If a note with the id exists: on press it is re-armed
only when `off > on` (strictly); on release `off` is set only when
`off < on`.  Otherwise a press appends a fresh note
`{id, on = clock, off = 0, instrument_id = 0, active = true}`. -/
def note_event (note_id : ℤ) (is_pressed : Bool) (data : NoiseMakerData) :
    NoiseMakerData :=
  let dt := data.dt
  let touch := fun (note : NoiseMakerNote) =>
    if is_pressed then
      if note.off_time > note.on_time then { note with on_time := dt, active := true }
      else note
    else if note.off_time < note.on_time then { note with off_time := dt }
    else note
  if (data.notes.find? fun n => n.id == note_id).isSome then
    { data with notes := updateFirst (fun n => n.id == note_id) touch data.notes }
  else if is_pressed then
    { data with notes := data.notes ++
        [{ id := note_id, on_time := dt, off_time := 0, active := true, channel := 0 }] }
  else
    data

/-- `src/main.rs`: the instrument registry `vec![InstrumentType::from(Default::new())]`,
modelled as the indexing function (only index 0 is ever used). -/
def mainInstruments : ℕ → InstrumentSpec :=
  fun _ => DefaultInstrument

/-- The shared sub-computation of the release branch of
`EnvelopeADSR::amplitude`: the amplitude the attack/decay rule reaches at
`lifetime = dt_off - dt_on`, the local `release_amplitude` of the source. -/
def releaseAmp (e : EnvelopeADSR) (lifetime : ℚ) : ℚ :=
  let r1 := if lifetime ≤ e.attack_time then
    lifetime / e.attack_time * e.start_amplitude else 0
  let r2 := if e.attack_time < lifetime ∧ lifetime ≤ e.attack_time + e.decay_time then
    (lifetime - e.attack_time) / e.decay_time *
      (e.sustain_amplitude - e.start_amplitude) + e.start_amplitude else r1
  if e.attack_time + e.decay_time < lifetime then e.sustain_amplitude else r2

/-- A concrete oracle (all transcendental functions constantly zero). -/
def oracle0 : Oracle :=
  { sin := fun _ => 0, asin := fun _ => 0, pi := 0, pow2 := fun _ => 0, rand := 0 }

/-- A concrete oracle whose `sin` is constantly `1` (so the spec's expected
sine factor is nonzero) and whose `pi` is a nonzero rational. -/
def oracle1 : Oracle :=
  { sin := fun _ => 1, asin := fun x => x, pi := 3, pow2 := fun _ => 1, rand := 0 }

/-- A concrete oracle for the determinism witness, drawing `5` for noise. -/
def oracleW1 : Oracle :=
  { sin := fun x => x, asin := fun x => x, pi := 3, pow2 := fun x => x, rand := 5 }

/-- Identical to `oracleW1` except for the random draw. -/
def oracleW2 : Oracle :=
  { sin := fun x => x, asin := fun x => x, pi := 3, pow2 := fun x => x, rand := 7 }

/-- A released note (`off_time > on_time`) whose envelope amplitude under the
default envelope is already 0 at clock `9/5`, but whose hard cutoff
(`max_lifetime = 1` for the Default instrument) has not fired yet. -/
def noteC1 : NoiseMakerNote :=
  { id := 69, on_time := 1, off_time := 11 / 10, active := true, channel := 0 }

/-- Session state holding `noteC1` whose next sample tick lands on clock
`86400 / 48000 = 9/5`. -/
def dataC1 : NoiseMakerData :=
  { num_sample := 86399, dt := 0, envelope := EnvelopeADSR.new, notes := [noteC1] }

/-- A never-released DrumKick note (`off_time = 0 <= on_time`) far beyond the
DrumKick `max_lifetime` of `1.5` at clock 3. -/
def noteC2 : NoiseMakerNote :=
  { id := 69, on_time := 1 / 2, off_time := 0, active := true, channel := 0 }

/-- Session state holding `noteC2` whose next sample tick lands on clock
`144000 / 48000 = 3`. -/
def dataC2 : NoiseMakerData :=
  { num_sample := 143999, dt := 0, envelope := EnvelopeADSR.new, notes := [noteC2] }

/-- A released DrumKick note past its hard cutoff at clock 3. -/
def noteC2w : NoiseMakerNote :=
  { id := 69, on_time := 1 / 2, off_time := 3 / 5, active := true, channel := 0 }

/-- Session state at clock 3 holding `noteC2w`. -/
def dataC2w : NoiseMakerData :=
  { num_sample := 0, dt := 3, envelope := EnvelopeADSR.new, notes := [noteC2w] }

/-- Session state at clock 1 holding a note with `on_time = off_time = 0`
(exactly the state a press at clock 0 creates). -/
def dataC3 : NoiseMakerData :=
  { num_sample := 0, dt := 1, envelope := EnvelopeADSR.new,
    notes := [{ id := 69, on_time := 0, off_time := 0, active := true, channel := 0 }] }

/-- A pressed A4 note for the Default instrument. -/
def noteA4 : NoiseMakerNote :=
  { id := 69, on_time := 0, off_time := 0, active := true, channel := 0 }

/-- An envelope with a zero-duration attack phase (and otherwise the default
parameters). -/
def envZeroAttack : EnvelopeADSR :=
  { attack_time := 0, decay_time := 1 / 10, sustain_amplitude := 1,
    release_time := 1 / 5, start_amplitude := 1 }

/-- The render-then-evict pass of `make_noise` keeps exactly the notes that
were active and were not marked inactive by the
`finished && note.off > note.on` test, in order. -/
lemma removeInactive_render (o : Oracle) (instruments : ℕ → InstrumentSpec) (dt : ℚ)
    (notes : List NoiseMakerNote) :
    removeInactive ((notes.map (renderNote o instruments dt)).map Prod.snd) =
      notes.filter (fun note => note.active &&
        !((play_note o (instruments note.channel) dt note).2 &&
          decide (note.off_time > note.on_time))) := by
  induction notes with
  | nil => rfl
  | cons n ns ih =>
    cases hp : (play_note o (instruments n.channel) dt n).2 <;>
      cases hq : decide (n.off_time > n.on_time) <;>
        cases ha : n.active <;>
          simpa [renderNote, hp, hq, ha, removeInactive] using ih

/-- The notes surviving one `make_noise` pass are exactly those that were
active and not `finished && released`; the envelope amplitude plays no role
in eviction. -/
lemma make_noise_locked_notes (o : Oracle) (instruments : ℕ → InstrumentSpec)
    (data : NoiseMakerData) :
    (make_noise_locked o instruments data).2.notes =
      data.notes.filter (fun note => note.active &&
        !((play_note o (instruments note.channel) data.dt note).2 &&
          decide (note.off_time > note.on_time))) := by
  simp only [make_noise_locked]
  exact removeInactive_render o instruments data.dt data.notes

/-- `updateFirst` never changes the length of the list. -/
lemma updateFirst_length (p : NoiseMakerNote → Bool) (f : NoiseMakerNote → NoiseMakerNote)
    (l : List NoiseMakerNote) : (updateFirst p f l).length = l.length := by
  induction l with
  | nil => rfl
  | cons n ns ih =>
    simp only [updateFirst]
    split <;> simp [ih]

/-- `EnvelopeADSR::amplitude` on a released note (`dt_on <= dt_off`) is the
clamped linear release ramp starting from `releaseAmp` of the sounding
duration. -/
lemma amplitude_released (e : EnvelopeADSR) (dt dt_on dt_off : ℚ)
    (h : dt_on ≤ dt_off) :
    e.amplitude dt dt_on dt_off =
      if (dt - dt_off) / e.release_time * (-releaseAmp e (dt_off - dt_on))
          + releaseAmp e (dt_off - dt_on) ≤ 0.0001 then 0
      else (dt - dt_off) / e.release_time * (-releaseAmp e (dt_off - dt_on))
          + releaseAmp e (dt_off - dt_on) := by
  have hno : ¬ dt_on > dt_off := not_lt.mpr h
  simp only [EnvelopeADSR.amplitude, releaseAmp, hno, if_false]

/-- `releaseAmp` is non-negative for non-negative phase durations and
amplitudes and a non-negative sounding duration. -/
lemma releaseAmp_nonneg (e : EnvelopeADSR) (L : ℚ) (hL : 0 ≤ L)
    (ha : 0 < e.attack_time) (hd : 0 < e.decay_time)
    (hs : 0 ≤ e.start_amplitude) (hsus : 0 ≤ e.sustain_amplitude) :
    0 ≤ releaseAmp e L := by
  simp only [releaseAmp]
  split
  · exact hsus
  · split
    · rename_i h2
      obtain ⟨h2a, h2b⟩ := h2
      have ht0 : 0 < (L - e.attack_time) / e.decay_time :=
        div_pos (by linarith) hd
      have ht1 : (L - e.attack_time) / e.decay_time ≤ 1 :=
        (div_le_one hd).mpr (by linarith)
      nlinarith [ht0, ht1]
    · split
      · rename_i h1
        have : 0 ≤ L / e.attack_time := div_nonneg hL ha.le
        exact mul_nonneg this hs
      · exact le_refl 0

/-- Claim C4 counterexample: for the Plain/Default instrument the `finished`
flag is `true` as soon as `dt - note.on_time` reaches the trait-default
`max_lifetime` of `1.0` — here at `dt = 2` for a note pressed at `0` — so
the instrument does have a lifetime cap, contrary to the claim. -/
theorem C4_counterexample :
    (play_note oracle0 DefaultInstrument 2 noteA4).2 = true := by
  norm_num [play_note, DefaultInstrument, noteA4, oracle0]

/-- Claim C4, amended: the Plain/Default instrument inherits the trait
default `max_lifetime() = 1.0`, so its `finished` flag is `true` exactly
when `dt - note.on_time >= 1`. -/
theorem C4_amended (o : Oracle) (dt : ℚ) (note : NoiseMakerNote) :
    (play_note o DefaultInstrument dt note).2 = decide (1 ≤ dt - note.on_time) := by
  simp only [play_note, DefaultInstrument, decide_eq_decide]
  constructor
  · rintro ⟨-, h⟩
    exact h
  · intro h
    exact ⟨by norm_num, h⟩

/-- Claim C5 counterexample: with `attack_time = 0` (default otherwise), a
pressed note (`dt_on = 1 > 0 = dt_off`) queried exactly at its on-time makes
the source's attack branch divide `0 / 0` (NaN in `f64`), and under
total-division semantics the amplitude is `0`, not the phase target
`start_amplitude = 1` the claim demands. -/
theorem C5_counterexample :
    amplitudeDividesByZero envZeroAttack 1 1 0 = true ∧
      envZeroAttack.amplitude 1 1 0 = 0 ∧
      envZeroAttack.start_amplitude = 1 := by
  refine ⟨?_, ?_, rfl⟩
  · norm_num [amplitudeDividesByZero, envZeroAttack]
  · norm_num [EnvelopeADSR.amplitude, envZeroAttack]

/-- Claim C5, amended: the amplitude function guards none of its divisions;
with `attack_time = 0`, querying a pressed note exactly at its on-time
executes a division with zero denominator (`0/0`, NaN in `f64`) — a
zero-duration phase is not treated as instantaneously complete, and under
total-division semantics the result is `0` rather than the phase's target
value. -/
theorem C5_amended (e : EnvelopeADSR) (dt_on dt_off : ℚ)
    (h1 : e.attack_time = 0) (h2 : dt_off < dt_on) (h3 : 0 ≤ e.decay_time) :
    amplitudeDividesByZero e dt_on dt_on dt_off = true ∧
      e.amplitude dt_on dt_on dt_off = 0 := by
  constructor
  · simp only [amplitudeDividesByZero, h2, if_pos, gt_iff_lt, decide_eq_true_eq]
    left
    exact ⟨by simp [h1], h1⟩
  · have hnd : ¬ e.decay_time < 0 := not_lt.mpr h3
    simp [EnvelopeADSR.amplitude, h1, h2, hnd]

/-- Witness for C5_amended at the concrete envelope `envZeroAttack`. -/
theorem C5_amended_witness :
    envZeroAttack.attack_time = 0 ∧ (0 : ℚ) < 1 ∧ 0 ≤ envZeroAttack.decay_time ∧
      (amplitudeDividesByZero envZeroAttack 1 1 0 = true ∧
        envZeroAttack.amplitude 1 1 0 = 0) :=
  ⟨rfl, by norm_num, by norm_num [envZeroAttack],
    C5_amended envZeroAttack 1 0 rfl (by norm_num) (by norm_num [envZeroAttack])⟩

/-- Claim C6: a failed lock acquisition makes `make_noise` return exactly
`0` without touching any state, and the corresponding `next_sample` call
returns `0` leaving the session state unchanged, so the next frame proceeds
from the same state; no error is propagated (the functions are total). -/
theorem C6_lock_failure_silence (o : Oracle) (instruments : ℕ → InstrumentSpec)
    (data : NoiseMakerData) :
    make_noise o instruments none = (0, none) ∧
      next o instruments false data = (0, data) := by
  constructor
  · rfl
  · rfl

/-- Claim C9: `osc` is deterministic for every non-noise waveform — its
output depends only on the mathematical functions of the oracle, not on the
random draw, so two calls with identical arguments (and any random state)
are identical. -/
theorem C9_osc_deterministic (o1 o2 : Oracle) (dt freq lfo_hertz lfo_amplitude : ℚ)
    (wave : WaveType) (hsin : o1.sin = o2.sin) (hasin : o1.asin = o2.asin)
    (hpi : o1.pi = o2.pi) (hw : wave ≠ WaveType.Noise) :
    osc o1 dt freq wave lfo_hertz lfo_amplitude =
      osc o2 dt freq wave lfo_hertz lfo_amplitude := by
  cases wave with
  | Noise => exact absurd rfl hw
  | Sine => simp [osc, w, frac2pi, fracPi2, hsin, hasin, hpi]
  | Square => simp [osc, w, frac2pi, fracPi2, hsin, hasin, hpi]
  | Triangle => simp [osc, w, frac2pi, fracPi2, hsin, hasin, hpi]
  | SawSlow => simp [osc, w, frac2pi, fracPi2, hsin, hasin, hpi]
  | SawFast => simp [osc, w, frac2pi, fracPi2, hsin, hasin, hpi]

/-- Witness for C9 at concrete arguments: two oracles differing only in the
random draw agree on a `Sine` call. -/
theorem C9_osc_deterministic_witness :
    oracleW1.sin = oracleW2.sin ∧ oracleW1.asin = oracleW2.asin ∧
      oracleW1.pi = oracleW2.pi ∧ WaveType.Sine ≠ WaveType.Noise ∧
      osc oracleW1 1 2 WaveType.Sine 3 4 = osc oracleW2 1 2 WaveType.Sine 3 4 :=
  ⟨rfl, rfl, rfl, by decide,
    C9_osc_deterministic oracleW1 oracleW2 1 2 3 4 WaveType.Sine rfl rfl rfl (by decide)⟩

/-- The final clamp of `EnvelopeADSR::amplitude` maps every value at or
below `1e-4` to exactly `0`, so the result is `0` or exceeds `1e-4`. -/
lemma clamp_cases (x : ℚ) :
    (if x ≤ 0.0001 then (0 : ℚ) else x) = 0 ∨
      (1 / 10000 : ℚ) < (if x ≤ 0.0001 then (0 : ℚ) else x) := by
  split
  · exact Or.inl rfl
  · rename_i h
    right
    have : (0.0001 : ℚ) = 1 / 10000 := by norm_num
    linarith [lt_of_not_le h]

/-- Claim C10: with strictly positive phase durations and non-negative
start/sustain amplitudes, `EnvelopeADSR::amplitude` is never negative and
never lands in `(0, 1e-4]`: the clamp makes the result either exactly `0`
or strictly greater than `1e-4`. -/
theorem C10_amplitude_clamped (e : EnvelopeADSR) (dt dt_on dt_off : ℚ)
    (ha : 0 < e.attack_time) (hd : 0 < e.decay_time) (hr : 0 < e.release_time)
    (hs : 0 ≤ e.start_amplitude) (hsus : 0 ≤ e.sustain_amplitude) :
    e.amplitude dt dt_on dt_off = 0 ∨
      (1 / 10000 : ℚ) < e.amplitude dt dt_on dt_off := by
  unfold EnvelopeADSR.amplitude
  exact clamp_cases _

/-- Claim C1 counterexample: `noteC1` is released (`off_time > on_time`)
and its envelope amplitude at the frame clock `9/5` is exactly `0`, yet the
`next_sample` pass does not remove it from `notes` — eviction ignores the
envelope amplitude and waits for the hard cutoff. -/
theorem C1_counterexample :
    noteC1.off_time > noteC1.on_time ∧
      EnvelopeADSR.default.amplitude (9 / 5) noteC1.on_time noteC1.off_time = 0 ∧
      (next oracle0 mainInstruments true dataC1).2.notes = [noteC1] := by
  refine ⟨by norm_num [noteC1], ?_, ?_⟩
  · norm_num [EnvelopeADSR.amplitude, EnvelopeADSR.default, EnvelopeADSR.new, noteC1]
  · norm_num [next, make_noise_locked, renderNote, play_note, mainInstruments,
      DefaultInstrument, EnvelopeADSR.amplitude, EnvelopeADSR.default, EnvelopeADSR.new,
      dataC1, noteC1, oracle0, sample_rate, removeInactive]

/-- Claim C1, amended: in every `make_noise` pass a Note is marked inactive
exactly when its instrument signals hard-cutoff `finished` AND the note has
been released (`off_time > on_time`); the surviving notes are precisely the
previously-active notes not satisfying that conjunction, in order.  The
envelope amplitude plays no role in eviction, so a released note whose
amplitude has decayed to 0 stays in `notes` until its hard cutoff fires. -/
theorem C1_eviction_amended (o : Oracle) (instruments : ℕ → InstrumentSpec)
    (data : NoiseMakerData) :
    (make_noise_locked o instruments data).2.notes =
      data.notes.filter (fun note => note.active &&
        !((play_note o (instruments note.channel) data.dt note).2 &&
          decide (note.off_time > note.on_time))) :=
  make_noise_locked_notes o instruments data

/-- Claim C2 counterexample: `noteC2` is a never-released DrumKick note
(`off_time = 0 ≤ on_time`); at frame clock `3` the instrument reports
hard-cutoff `finished = true` (`3 - 1/2 ≥ 1.5`), yet the note is NOT forced
inactive by the sample pass: it survives with `active = true` because the
deactivation also requires `off_time > on_time`. -/
theorem C2_counterexample :
    (play_note oracle0 DrumKick 3 noteC2).2 = true ∧
      noteC2.off_time ≤ noteC2.on_time ∧
      (next oracle0 (fun _ => DrumKick) true dataC2).2.notes = [noteC2] := by
  refine ⟨?_, by norm_num [noteC2], ?_⟩
  · norm_num [play_note, DrumKick, noteC2, oracle0]
  · norm_num [next, make_noise_locked, renderNote, play_note, DrumKick,
      EnvelopeADSR.amplitude, dataC2, noteC2, oracle0, sample_rate, removeInactive]

/-- Claim C2, amended: a note whose instrument has `max_lifetime > 0` and
whose age has reached that lifetime is forced inactive and removed during
the sample pass only if it has also been released
(`off_time > on_time`); under that extra condition, removal is guaranteed
regardless of the envelope amplitude. -/
theorem C2_hard_cutoff_amended (o : Oracle) (instruments : ℕ → InstrumentSpec)
    (data : NoiseMakerData) (note : NoiseMakerNote)
    (h1 : 0 < (instruments note.channel).max_lifetime)
    (h2 : (instruments note.channel).max_lifetime ≤ data.dt - note.on_time)
    (h3 : note.on_time < note.off_time) :
    note ∉ (make_noise_locked o instruments data).2.notes := by
  rw [make_noise_locked_notes]
  intro hmem
  have hpred := (List.mem_filter.mp hmem).2
  have hfin : (play_note o (instruments note.channel) data.dt note).2 = true := by
    simp only [play_note]
    exact decide_eq_true ⟨h1, h2⟩
  rw [hfin, decide_eq_true h3] at hpred
  simp at hpred

/-- Witness for C2_hard_cutoff_amended: a released DrumKick note past the
`1.5` second lifetime at clock 3 is evicted. -/
theorem C2_hard_cutoff_amended_witness :
    0 < DrumKick.max_lifetime ∧
      DrumKick.max_lifetime ≤ dataC2w.dt - noteC2w.on_time ∧
      noteC2w.on_time < noteC2w.off_time ∧
      noteC2w ∉ (make_noise_locked oracle0 (fun _ => DrumKick) dataC2w).2.notes :=
  ⟨by norm_num [DrumKick], by norm_num [DrumKick, dataC2w, noteC2w],
    by norm_num [noteC2w],
    C2_hard_cutoff_amended oracle0 (fun _ => DrumKick) dataC2w noteC2w
      (by norm_num [DrumKick]) (by norm_num [DrumKick, dataC2w, noteC2w])
      (by norm_num [noteC2w])⟩

/-- Claim C3 counterexample: `dataC3` holds a note with
`on_time = off_time = 0` (the state a press at clock 0 creates) and the
clock is now `1`.  The note is released in the claim's sense
(`off_time ≥ on_time`), so the claim demands a re-arm setting
`on_time = 1`; the code re-arms only when `off_time > on_time` strictly and
leaves `on_time = 0`. -/
theorem C3_counterexample :
    dataC3.dt = 1 ∧
      (note_event 69 true dataC3).notes.map (fun n => n.on_time) = [0] := by
  constructor
  · rfl
  · norm_num [note_event, dataC3, updateFirst]

/-- Claim C3, amended: on press with no existing note of that pitch, a new
note `{id, on_time = clock, off_time = 0, active}` is appended; on press
with an existing note, only the first matching note is touched and it is
re-armed (`on_time := clock`, `active := true`) exactly when
`off_time > on_time` strictly (not `≥`); on release the first matching
note gets `off_time := clock` exactly when `off_time < on_time`; the
length of `notes` changes only for a press with no existing note. -/
theorem C3_note_event_amended (data : NoiseMakerData) (nid : ℤ) :
    (note_event nid true data).notes =
      (if (data.notes.find? fun n => n.id == nid).isSome then
        updateFirst (fun n => n.id == nid)
          (fun note => if note.off_time > note.on_time then
            { note with on_time := data.dt, active := true } else note) data.notes
      else data.notes ++ [⟨nid, data.dt, 0, true, 0⟩]) ∧
    (note_event nid false data).notes =
      (if (data.notes.find? fun n => n.id == nid).isSome then
        updateFirst (fun n => n.id == nid)
          (fun note => if note.off_time < note.on_time then
            { note with off_time := data.dt } else note) data.notes
      else data.notes) ∧
    (note_event nid true data).notes.length =
      (if (data.notes.find? fun n => n.id == nid).isSome then data.notes.length
       else data.notes.length + 1) ∧
    (note_event nid false data).notes.length = data.notes.length := by
  by_cases h : (data.notes.find? fun n => n.id == nid).isSome = true
  · refine ⟨?_, ?_, ?_, ?_⟩ <;> simp [note_event, h, updateFirst_length]
  · refine ⟨?_, ?_, ?_, ?_⟩ <;> simp [note_event, h]

/-- Claim C7 counterexample: after `note_event(69, pressed)` at clock 0 the
note has `on_time = off_time = 0`; `next_sample()` at sample counter 1
returns exactly `0`, while the claim's expected value
`ramp(1/48000) × sin(2π·440/48000) × 0.2` is nonzero whenever the sine
factor is (here under an oracle with that sine value `1`; the real sine of
`2π·440/48000 ≈ 0.0576` is likewise nonzero). -/
theorem C7_counterexample :
    (next oracle1 mainInstruments true (note_event 69 true NoiseMakerData.new)).1 = 0 ∧
      (1 : ℚ) / 48000 / EnvelopeADSR.default.attack_time *
        EnvelopeADSR.default.start_amplitude *
        oracle1.sin (w oracle1 440 * (1 / 48000)) * 0.2 ≠ 0 := by
  constructor
  · norm_num [next, make_noise_locked, renderNote, play_note, mainInstruments,
      DefaultInstrument, EnvelopeADSR.amplitude, EnvelopeADSR.default, EnvelopeADSR.new,
      note_event, NoiseMakerData.new, oracle1, sample_rate, removeInactive]
  · norm_num [EnvelopeADSR.default, EnvelopeADSR.new, oracle1, w]

/-- Claim C7, amended: the concrete scenario returns exactly `0` for every
interpretation of the transcendental functions: the note created at clock 0
has `on_time = off_time = 0`, so the envelope's note-on test
`on_time > off_time` fails, the release branch computes amplitude `0`, and
the rendered sample is `0 × oscillators × volume × 0.2 = 0`. -/
theorem C7_amended (o : Oracle) :
    (next o mainInstruments true (note_event 69 true NoiseMakerData.new)).1 = 0 := by
  have h1 : note_event 69 true NoiseMakerData.new =
      { num_sample := 0, dt := 0, envelope := EnvelopeADSR.new,
        notes := [⟨69, 0, 0, true, 0⟩] } := by
    norm_num [note_event, NoiseMakerData.new]
  have h2 : ∀ dtq : ℚ, EnvelopeADSR.default.amplitude dtq 0 0 = 0 := by
    intro dtq
    norm_num [EnvelopeADSR.amplitude, EnvelopeADSR.default, EnvelopeADSR.new]
  rw [h1]
  simp [next, make_noise_locked, renderNote, play_note, mainInstruments,
    DefaultInstrument, h2, apply_ite, sample_rate]

/-- Claim C8: for a released note (`on_time ≤ off_time`) with strictly
positive phase durations and non-negative amplitudes, the envelope
amplitude is non-increasing in the query time, and it is exactly `0` at
every query time past `off_time + release_time`. -/
theorem C8_release_monotone (e : EnvelopeADSR) (dt_on dt_off dt1 dt2 dtz : ℚ)
    (ha : 0 < e.attack_time) (hd : 0 < e.decay_time) (hr : 0 < e.release_time)
    (hs : 0 ≤ e.start_amplitude) (hsus : 0 ≤ e.sustain_amplitude)
    (hoo : dt_on ≤ dt_off) (h12 : dt1 ≤ dt2)
    (hz : dt_off + e.release_time < dtz) :
    e.amplitude dt2 dt_on dt_off ≤ e.amplitude dt1 dt_on dt_off ∧
      e.amplitude dtz dt_on dt_off = 0 := by
  have hR : 0 ≤ releaseAmp e (dt_off - dt_on) :=
    releaseAmp_nonneg e _ (by linarith) ha hd hs hsus
  have hc : (0 : ℚ) ≤ 0.0001 := by norm_num
  constructor
  · rw [amplitude_released e dt1 dt_on dt_off hoo,
      amplitude_released e dt2 dt_on dt_off hoo]
    have hq : (dt1 - dt_off) / e.release_time ≤ (dt2 - dt_off) / e.release_time :=
      (div_le_div_right hr).mpr (by linarith)
    have hmono : (dt2 - dt_off) / e.release_time * (-releaseAmp e (dt_off - dt_on))
        + releaseAmp e (dt_off - dt_on) ≤
        (dt1 - dt_off) / e.release_time * (-releaseAmp e (dt_off - dt_on))
        + releaseAmp e (dt_off - dt_on) := by
      nlinarith [mul_le_mul_of_nonneg_left hq hR]
    split_ifs with c1 c2
    · exact le_refl 0
    · linarith [lt_of_not_le c2]
    · linarith [lt_of_not_le c1]
    · exact hmono
  · rw [amplitude_released e dtz dt_on dt_off hoo]
    have hq1 : 1 < (dtz - dt_off) / e.release_time :=
      (one_lt_div hr).mpr (by linarith)
    have hle : (dtz - dt_off) / e.release_time * (-releaseAmp e (dt_off - dt_on))
        + releaseAmp e (dt_off - dt_on) ≤ 0.0001 := by
      nlinarith [mul_le_mul_of_nonneg_left hq1.le hR]
    rw [if_pos hle]

/-- Witness for C8 at the default envelope: a note on at 0, off at 1,
sampled at `21/20 ≤ 11/10` during release and at `13/10` past the release
end. -/
theorem C8_release_monotone_witness :
    (0 : ℚ) < EnvelopeADSR.new.attack_time ∧
      (0 : ℚ) < EnvelopeADSR.new.decay_time ∧
      (0 : ℚ) < EnvelopeADSR.new.release_time ∧
      (0 : ℚ) ≤ EnvelopeADSR.new.start_amplitude ∧
      (0 : ℚ) ≤ EnvelopeADSR.new.sustain_amplitude ∧
      (0 : ℚ) ≤ 1 ∧ (21 / 20 : ℚ) ≤ 11 / 10 ∧
      (1 : ℚ) + EnvelopeADSR.new.release_time < 13 / 10 ∧
      (EnvelopeADSR.new.amplitude (11 / 10) 0 1 ≤
        EnvelopeADSR.new.amplitude (21 / 20) 0 1 ∧
        EnvelopeADSR.new.amplitude (13 / 10) 0 1 = 0) :=
  ⟨by norm_num [EnvelopeADSR.new], by norm_num [EnvelopeADSR.new],
    by norm_num [EnvelopeADSR.new], by norm_num [EnvelopeADSR.new],
    by norm_num [EnvelopeADSR.new], by norm_num, by norm_num,
    by norm_num [EnvelopeADSR.new],
    C8_release_monotone EnvelopeADSR.new 0 1 (21 / 20) (11 / 10) (13 / 10)
      (by norm_num [EnvelopeADSR.new]) (by norm_num [EnvelopeADSR.new])
      (by norm_num [EnvelopeADSR.new]) (by norm_num [EnvelopeADSR.new])
      (by norm_num [EnvelopeADSR.new]) (by norm_num) (by norm_num)
      (by norm_num [EnvelopeADSR.new])⟩

/-- Witness for C10 at the default envelope during the attack phase. -/
theorem C10_amplitude_clamped_witness :
    (0 : ℚ) < EnvelopeADSR.new.attack_time ∧ (0 : ℚ) < EnvelopeADSR.new.decay_time ∧
      (0 : ℚ) < EnvelopeADSR.new.release_time ∧
      (0 : ℚ) ≤ EnvelopeADSR.new.start_amplitude ∧
      (0 : ℚ) ≤ EnvelopeADSR.new.sustain_amplitude ∧
      (EnvelopeADSR.new.amplitude (21 / 20) 1 0 = 0 ∨
        (1 / 10000 : ℚ) < EnvelopeADSR.new.amplitude (21 / 20) 1 0) :=
  ⟨by norm_num [EnvelopeADSR.new], by norm_num [EnvelopeADSR.new],
    by norm_num [EnvelopeADSR.new], by norm_num [EnvelopeADSR.new],
    by norm_num [EnvelopeADSR.new],
    C10_amplitude_clamped EnvelopeADSR.new (21 / 20) 1 0
      (by norm_num [EnvelopeADSR.new]) (by norm_num [EnvelopeADSR.new])
      (by norm_num [EnvelopeADSR.new]) (by norm_num [EnvelopeADSR.new])
      (by norm_num [EnvelopeADSR.new])⟩

end SynthRs
